import Mathlib

/-!
Shallow embedding of `src/automated_thermometer_alarm_v3.ino`, the ESP32
thermometer / alarm firmware.

Modelling conventions:

* Clients are identified by their WebSocket id (`ClientId := Nat`); the
  library assigns distinct ids to distinct client objects, so the source's
  pointer comparison `client != activeClient` and id comparison
  `client->id() == activeClient->id()` are both modelled as id equality
  against the registered active client.
* Temperature readings are carried opaquely (stored and echoed, never
  computed with), so they are modelled as `Int` values fed into each
  broadcast tick as an input.
* `millis()` is a monotonically increasing timestamp, modelled as a `Nat`
  supplied to each loop iteration; all reads of `millis()` inside one
  iteration of `loop()` are modelled as the same value `now` (they differ
  only by the sub-millisecond execution time of the iteration).  The C
  expression `now - last` on `unsigned long` coincides with truncated `Nat`
  subtraction whenever `last <= now`, which holds in every run because the
  `last*` fields are only ever assigned earlier values of `millis()`.
* LED pins are active-low: `digitalWrite(pin, LOW)` turns the LED on.
  We model the physical pin level (`Level.LOW` / `Level.HIGH`); the LED is
  "on" exactly when the level is `LOW`.
* Outbound traffic is modelled as a list of `OutAction`s per processed
  event: `send c r` for `client->text(...)` of the JSON payload denoted by
  `r`, and `close c` for `client->close()`.
-/

abbrev ClientId := Nat

abbrev Temp := Int

/-- Physical pin level; LEDs are wired active-low, so `LOW` means the LED
is lit. -/
inductive Level where
  | LOW
  | HIGH
deriving DecidableEq

/-- Inversion of a pin level, as in `digitalWrite(pin, !digitalRead(pin))`. -/
def Level.toggle : Level → Level
  | .LOW => .HIGH
  | .HIGH => .LOW

/-- Whether an active-low LED is lit at a given pin level. -/
def Level.isOn : Level → Bool
  | .LOW => true
  | .HIGH => false

/-- The distinct JSON payloads the firmware ever writes to a client.
Each constructor stands for one exact JSON text:
`statusOk` for the test acknowledgement, `errorAnotherUser` for the
"another user is already connected" error, `recordingStarted` and
`recordingStopped` for the record acknowledgements, `dataArr vs` for the
get_record export whose "data" array holds `vs` in order, `errorUnknown`
for the "unknown command" error, and `temperature t` for a periodic
sample broadcast. -/
inductive Reply where
  | statusOk
  | errorAnotherUser
  | recordingStarted
  | recordingStopped
  | dataArr (values : List Temp)
  | errorUnknown
  | temperature (t : Temp)
deriving DecidableEq

/-- One outbound channel action: a text frame sent to a client, or an
immediate close of a client's channel. -/
inductive OutAction where
  | send (dest : ClientId) (r : Reply)
  | close (c : ClientId)
deriving DecidableEq

/-- The firmware's mutable global state: recording flag and buffer, the
single-client session registration, the four LED pin levels, the two blink
flags and the four millisecond timers. -/
structure DeviceState where
  lastSendTime : Nat
  isRecording : Bool
  recordedData : List Temp
  activeClient : Option ClientId
  clientConnected : Bool
  ledGreen : Level
  ledBlue : Level
  ledRed : Level
  ledYellow : Level
  redBlink : Bool
  yellowBlink : Bool
  lastRedToggle : Nat
  lastYellowToggle : Nat
  lastBlueBlink : Nat
deriving DecidableEq

/-- Global initialisers plus `setupLEDs()`: timers at 0, nothing recording,
no client registered, all LEDs off (`HIGH`, active-low). -/
def initState : DeviceState :=
  { lastSendTime := 0
    isRecording := false
    recordedData := []
    activeClient := none
    clientConnected := false
    ledGreen := .HIGH
    ledBlue := .HIGH
    ledRed := .HIGH
    ledYellow := .HIGH
    redBlink := false
    yellowBlink := false
    lastRedToggle := 0
    lastYellowToggle := 0
    lastBlueBlink := 0 }

/-- Element capacity of the `StaticJsonDocument<1024>` used by
`get_record`.  On the 32-bit ESP32 each ArduinoJson slot (one array
element, or the single root member binding the key "data") occupies 16
bytes of the 1024-byte pool, and the literal key itself is stored
zero-copy; 1024 / 16 = 64 slots, one of which holds the "data" member,
leaving 63 element slots.  Once the pool is exhausted `arr.add(val)`
returns `false` and the value is silently dropped from the document. -/
def docElemCapacity : Nat := 63

/-- The "data" array that `get_record` actually serialises: the recorded
samples in order, truncated to the capacity of the 1024-byte document. -/
def getRecordData (samples : List Temp) : List Temp :=
  samples.take docElemCapacity

/-- `handleClientCommand(client, msg)`: the command interpreter.  Returns
the updated state and the frames written to the sender. -/
def handleClientCommand (st : DeviceState) (sender : ClientId) (msg : String) :
    DeviceState × List OutAction :=
  if msg = "test" then
    if st.activeClient ≠ some sender then
      (st, [.send sender .errorAnotherUser])
    else
      (st, [.send sender .statusOk])
  else if msg = "web_connected" then
    ({ st with ledGreen := .LOW }, [])
  else if msg = "web_disconnected" then
    ({ st with ledGreen := .HIGH }, [])
  else if msg = "start_record" then
    ({ st with isRecording := true, recordedData := [], yellowBlink := true },
     [.send sender .recordingStarted])
  else if msg = "end_record" then
    ({ st with isRecording := false, yellowBlink := false, ledYellow := .HIGH },
     [.send sender .recordingStopped])
  else if msg = "threshold_alert_on" then
    ({ st with redBlink := true }, [])
  else if msg = "threshold_alert_off" then
    ({ st with redBlink := false, ledRed := .HIGH }, [])
  else if msg = "get_record" then
    (st, [.send sender (.dataArr (getRecordData st.recordedData))])
  else
    (st, [.send sender .errorUnknown])

/-- A WebSocket event as dispatched to `onWsEvent`: connect, disconnect,
or a text frame from a client. -/
inductive WsEvent where
  | connect (c : ClientId)
  | disconnect (c : ClientId)
  | data (c : ClientId) (msg : String)
deriving DecidableEq

/-- `onWsEvent`: the single-client session gate.  A connect while a client
is registered is answered by closing the candidate's channel; an accepted
connect registers the client and lights the green LED; a disconnect of the
registered client clears the session and the green LED; a data frame is
forwarded to the command interpreter only when it comes from the
registered client, and is dropped otherwise. -/
def onWsEvent (st : DeviceState) (ev : WsEvent) : DeviceState × List OutAction :=
  match ev with
  | .connect c =>
    if st.clientConnected then
      (st, [.close c])
    else
      ({ st with activeClient := some c, clientConnected := true,
                 ledGreen := .LOW }, [])
  | .disconnect c =>
    match st.activeClient with
    | some a =>
      if c = a then
        ({ st with activeClient := none, clientConnected := false,
                   ledGreen := .HIGH }, [])
      else
        (st, [])
    | none => (st, [])
  | .data c msg =>
    match st.activeClient with
    | some a =>
      if c = a then handleClientCommand st c msg else (st, [])
    | none => (st, [])

/-- First statement of `sendTemperatureToClients()`: pulse the blue read
LED (write `LOW` and reset its timer) when at least 1000 ms have passed
since the last pulse. -/
def bluePulseStep (st : DeviceState) (now : Nat) : DeviceState :=
  if 1000 ≤ now - st.lastBlueBlink then
    { st with lastBlueBlink := now, ledBlue := .LOW }
  else st

/-- `if (isRecording) recordedData.push_back(temp);` -/
def recordStep (st : DeviceState) (temp : Temp) : DeviceState :=
  if st.isRecording then
    { st with recordedData := st.recordedData ++ [temp] }
  else st

/-- `if (activeClient && activeClient->canSend()) activeClient->text(json);`
with `json` the serialised temperature frame. -/
def broadcastOut (st : DeviceState) (temp : Temp) (canSend : Bool) :
    List OutAction :=
  match st.activeClient with
  | some a => if canSend then [.send a (.temperature temp)] else []
  | none => []

/-- `sendTemperatureToClients()`: read one sample `temp`, pulse the blue
read LED when at least 1000 ms have passed since its last pulse, append the
sample to the buffer when recording, and send the temperature frame to the
registered client when one exists and its channel reports `canSend()`. -/
def sendTemperatureToClients (st : DeviceState) (now : Nat) (temp : Temp)
    (canSend : Bool) : DeviceState × List OutAction :=
  let st2 := recordStep (bluePulseStep st now) temp
  (st2, broadcastOut st2 temp canSend)

/-- `handleBlink(pin, interval, lastToggle)`: toggle the pin and reset the
timer once `interval` milliseconds have elapsed since the last toggle. -/
def handleBlink (interval : Nat) (now : Nat) (led : Level) (lastToggle : Nat) :
    Level × Nat :=
  if interval ≤ now - lastToggle then (led.toggle, now) else (led, lastToggle)

/-- Blue auto-off statement of `loop()`: clear the blue LED once 200 ms
have passed since its pulse. -/
def blueAutoOffStep (st : DeviceState) (now : Nat) : DeviceState :=
  if st.ledBlue = .LOW ∧ 200 ≤ now - st.lastBlueBlink then
    { st with ledBlue := .HIGH }
  else st

/-- `if (redBlink) handleBlink(LED_RED, 500, lastRedToggle);` -/
def redBlinkStep (st : DeviceState) (now : Nat) : DeviceState :=
  if st.redBlink then
    let p := handleBlink 500 now st.ledRed st.lastRedToggle
    { st with ledRed := p.1, lastRedToggle := p.2 }
  else st

/-- `if (yellowBlink) handleBlink(LED_YELLOW, 1000, lastYellowToggle);` -/
def yellowBlinkStep (st : DeviceState) (now : Nat) : DeviceState :=
  if st.yellowBlink then
    let p := handleBlink 1000 now st.ledYellow st.lastYellowToggle
    { st with ledYellow := p.1, lastYellowToggle := p.2 }
  else st

/-- Broadcast statement of `loop()`: once more than 1000 ms have passed
since the last broadcast, call `sendTemperatureToClients` (consuming the
sensor reading `temp` and the channel writability `canSend`) and reset the
broadcast timer. -/
def broadcastStep (st : DeviceState) (now : Nat) (temp : Temp)
    (canSend : Bool) : DeviceState × List OutAction :=
  if 1000 < now - st.lastSendTime then
    let r := sendTemperatureToClients st now temp canSend
    ({ r.1 with lastSendTime := now }, r.2)
  else
    (st, [])

/-- One iteration of `loop()` at time `now`, statement by statement:
blue auto-off, red blink handler, yellow blink handler, then the periodic
broadcast. -/
def loopTick (st : DeviceState) (now : Nat) (temp : Temp) (canSend : Bool) :
    DeviceState × List OutAction :=
  broadcastStep (yellowBlinkStep (redBlinkStep (blueAutoOffStep st now) now) now)
    now temp canSend

/-- A system-level event: either a WebSocket event delivered by the async
server, or one iteration of `loop()` with its time, sensor reading and
channel-writability inputs. -/
inductive SysEvent where
  | ws (ev : WsEvent)
  | tick (now : Nat) (temp : Temp) (canSend : Bool)
deriving DecidableEq

/-- One step of the whole system on one event. -/
def sysStep (st : DeviceState) (ev : SysEvent) : DeviceState × List OutAction :=
  match ev with
  | .ws e => onWsEvent st e
  | .tick now temp canSend => loopTick st now temp canSend

/-- Run the system from a state through a sequence of events, keeping the
final state. -/
def runSys (st : DeviceState) : List SysEvent → DeviceState
  | [] => st
  | ev :: evs => runSys (sysStep st ev).1 evs

/-- The 8 command strings the interpreter recognises, in source order. -/
def recognizedCommands : List String :=
  ["test", "web_connected", "web_disconnected", "start_record", "end_record",
   "threshold_alert_on", "threshold_alert_off", "get_record"]

/-- Whether an event is a `start_record` frame that actually reaches the
interpreter, i.e. a data frame carrying `start_record` sent by the client
currently registered as active. -/
def isStartRecordEv (st : DeviceState) (ev : SysEvent) : Bool :=
  match ev with
  | .ws (.data c msg) => (st.activeClient == some c) && (msg == "start_record")
  | _ => false

/-- Whether an event is one of the two commands that drive the green LED
directly (`web_connected` / `web_disconnected`). -/
def isWebLedCmd : SysEvent → Bool
  | .ws (.data _ msg) => (msg == "web_connected") || (msg == "web_disconnected")
  | _ => false

/-!
Normal forms for the statements of `loop()` and
`sendTemperatureToClients()`: each stage is a single record update whose
fields carry the stage's guard, so that projections compute.
-/

theorem bluePulseStep_eq (st : DeviceState) (now : Nat) :
    bluePulseStep st now =
      { st with
          ledBlue := if 1000 ≤ now - st.lastBlueBlink then .LOW else st.ledBlue,
          lastBlueBlink :=
            if 1000 ≤ now - st.lastBlueBlink then now else st.lastBlueBlink } := by
  unfold bluePulseStep
  split_ifs <;> rfl

theorem recordStep_eq (st : DeviceState) (temp : Temp) :
    recordStep st temp =
      { st with
          recordedData :=
            if st.isRecording then st.recordedData ++ [temp]
            else st.recordedData } := by
  unfold recordStep
  split_ifs <;> rfl

theorem blueAutoOffStep_eq (st : DeviceState) (now : Nat) :
    blueAutoOffStep st now =
      { st with
          ledBlue :=
            if st.ledBlue = .LOW ∧ 200 ≤ now - st.lastBlueBlink then .HIGH
            else st.ledBlue } := by
  unfold blueAutoOffStep
  split_ifs <;> rfl

theorem redBlinkStep_eq (st : DeviceState) (now : Nat) :
    redBlinkStep st now =
      { st with
          ledRed :=
            if st.redBlink ∧ 500 ≤ now - st.lastRedToggle then st.ledRed.toggle
            else st.ledRed,
          lastRedToggle :=
            if st.redBlink ∧ 500 ≤ now - st.lastRedToggle then now
            else st.lastRedToggle } := by
  unfold redBlinkStep handleBlink
  split_ifs <;> first
    | rfl
    | tauto

theorem yellowBlinkStep_eq (st : DeviceState) (now : Nat) :
    yellowBlinkStep st now =
      { st with
          ledYellow :=
            if st.yellowBlink ∧ 1000 ≤ now - st.lastYellowToggle then
              st.ledYellow.toggle
            else st.ledYellow,
          lastYellowToggle :=
            if st.yellowBlink ∧ 1000 ≤ now - st.lastYellowToggle then now
            else st.lastYellowToggle } := by
  unfold yellowBlinkStep handleBlink
  split_ifs <;> first
    | rfl
    | tauto

/-!
Per-field descriptions of one `loop()` iteration.
-/

theorem loopTick_activeClient (st : DeviceState) (now : Nat) (temp : Temp)
    (canSend : Bool) :
    (loopTick st now temp canSend).1.activeClient = st.activeClient := by
  simp only [loopTick, broadcastStep, sendTemperatureToClients,
    blueAutoOffStep_eq, redBlinkStep_eq, yellowBlinkStep_eq, bluePulseStep_eq,
    recordStep_eq]
  split_ifs <;> rfl

theorem loopTick_clientConnected (st : DeviceState) (now : Nat) (temp : Temp)
    (canSend : Bool) :
    (loopTick st now temp canSend).1.clientConnected = st.clientConnected := by
  simp only [loopTick, broadcastStep, sendTemperatureToClients,
    blueAutoOffStep_eq, redBlinkStep_eq, yellowBlinkStep_eq, bluePulseStep_eq,
    recordStep_eq]
  split_ifs <;> rfl

theorem loopTick_ledGreen (st : DeviceState) (now : Nat) (temp : Temp)
    (canSend : Bool) :
    (loopTick st now temp canSend).1.ledGreen = st.ledGreen := by
  simp only [loopTick, broadcastStep, sendTemperatureToClients,
    blueAutoOffStep_eq, redBlinkStep_eq, yellowBlinkStep_eq, bluePulseStep_eq,
    recordStep_eq]
  split_ifs <;> rfl

theorem loopTick_isRecording (st : DeviceState) (now : Nat) (temp : Temp)
    (canSend : Bool) :
    (loopTick st now temp canSend).1.isRecording = st.isRecording := by
  simp only [loopTick, broadcastStep, sendTemperatureToClients,
    blueAutoOffStep_eq, redBlinkStep_eq, yellowBlinkStep_eq, bluePulseStep_eq,
    recordStep_eq]
  split_ifs <;> rfl

theorem loopTick_redBlink (st : DeviceState) (now : Nat) (temp : Temp)
    (canSend : Bool) :
    (loopTick st now temp canSend).1.redBlink = st.redBlink := by
  simp only [loopTick, broadcastStep, sendTemperatureToClients,
    blueAutoOffStep_eq, redBlinkStep_eq, yellowBlinkStep_eq, bluePulseStep_eq,
    recordStep_eq]
  split_ifs <;> rfl

theorem loopTick_yellowBlink (st : DeviceState) (now : Nat) (temp : Temp)
    (canSend : Bool) :
    (loopTick st now temp canSend).1.yellowBlink = st.yellowBlink := by
  simp only [loopTick, broadcastStep, sendTemperatureToClients,
    blueAutoOffStep_eq, redBlinkStep_eq, yellowBlinkStep_eq, bluePulseStep_eq,
    recordStep_eq]
  split_ifs <;> rfl

theorem loopTick_lastSendTime (st : DeviceState) (now : Nat) (temp : Temp)
    (canSend : Bool) :
    (loopTick st now temp canSend).1.lastSendTime =
      if 1000 < now - st.lastSendTime then now else st.lastSendTime := by
  simp only [loopTick, broadcastStep, sendTemperatureToClients,
    blueAutoOffStep_eq, redBlinkStep_eq, yellowBlinkStep_eq, bluePulseStep_eq,
    recordStep_eq]
  split_ifs <;> rfl

theorem loopTick_recordedData (st : DeviceState) (now : Nat) (temp : Temp)
    (canSend : Bool) :
    (loopTick st now temp canSend).1.recordedData =
      if 1000 < now - st.lastSendTime ∧ st.isRecording then
        st.recordedData ++ [temp]
      else st.recordedData := by
  simp only [loopTick, broadcastStep, sendTemperatureToClients,
    blueAutoOffStep_eq, redBlinkStep_eq, yellowBlinkStep_eq, bluePulseStep_eq,
    recordStep_eq]
  split_ifs <;> first
    | rfl
    | tauto

theorem loopTick_ledRed (st : DeviceState) (now : Nat) (temp : Temp)
    (canSend : Bool) :
    (loopTick st now temp canSend).1.ledRed =
      if st.redBlink ∧ 500 ≤ now - st.lastRedToggle then st.ledRed.toggle
      else st.ledRed := by
  simp only [loopTick, broadcastStep, sendTemperatureToClients,
    blueAutoOffStep_eq, redBlinkStep_eq, yellowBlinkStep_eq, bluePulseStep_eq,
    recordStep_eq]
  split_ifs <;> rfl

theorem loopTick_lastRedToggle (st : DeviceState) (now : Nat) (temp : Temp)
    (canSend : Bool) :
    (loopTick st now temp canSend).1.lastRedToggle =
      if st.redBlink ∧ 500 ≤ now - st.lastRedToggle then now
      else st.lastRedToggle := by
  simp only [loopTick, broadcastStep, sendTemperatureToClients,
    blueAutoOffStep_eq, redBlinkStep_eq, yellowBlinkStep_eq, bluePulseStep_eq,
    recordStep_eq]
  split_ifs <;> rfl

theorem loopTick_ledYellow (st : DeviceState) (now : Nat) (temp : Temp)
    (canSend : Bool) :
    (loopTick st now temp canSend).1.ledYellow =
      if st.yellowBlink ∧ 1000 ≤ now - st.lastYellowToggle then
        st.ledYellow.toggle
      else st.ledYellow := by
  simp only [loopTick, broadcastStep, sendTemperatureToClients,
    blueAutoOffStep_eq, redBlinkStep_eq, yellowBlinkStep_eq, bluePulseStep_eq,
    recordStep_eq]
  split_ifs <;> rfl

theorem loopTick_lastYellowToggle (st : DeviceState) (now : Nat) (temp : Temp)
    (canSend : Bool) :
    (loopTick st now temp canSend).1.lastYellowToggle =
      if st.yellowBlink ∧ 1000 ≤ now - st.lastYellowToggle then now
      else st.lastYellowToggle := by
  simp only [loopTick, broadcastStep, sendTemperatureToClients,
    blueAutoOffStep_eq, redBlinkStep_eq, yellowBlinkStep_eq, bluePulseStep_eq,
    recordStep_eq]
  split_ifs <;> rfl

theorem loopTick_ledBlue (st : DeviceState) (now : Nat) (temp : Temp)
    (canSend : Bool) :
    (loopTick st now temp canSend).1.ledBlue =
      if 1000 < now - st.lastSendTime ∧ 1000 ≤ now - st.lastBlueBlink then
        .LOW
      else if st.ledBlue = .LOW ∧ 200 ≤ now - st.lastBlueBlink then .HIGH
      else st.ledBlue := by
  simp only [loopTick, broadcastStep, sendTemperatureToClients,
    blueAutoOffStep_eq, redBlinkStep_eq, yellowBlinkStep_eq, bluePulseStep_eq,
    recordStep_eq]
  split_ifs <;> first
    | rfl
    | tauto

theorem loopTick_lastBlueBlink (st : DeviceState) (now : Nat) (temp : Temp)
    (canSend : Bool) :
    (loopTick st now temp canSend).1.lastBlueBlink =
      if 1000 < now - st.lastSendTime ∧ 1000 ≤ now - st.lastBlueBlink then now
      else st.lastBlueBlink := by
  simp only [loopTick, broadcastStep, sendTemperatureToClients,
    blueAutoOffStep_eq, redBlinkStep_eq, yellowBlinkStep_eq, bluePulseStep_eq,
    recordStep_eq]
  split_ifs <;> first
    | rfl
    | tauto

theorem loopTick_out (st : DeviceState) (now : Nat) (temp : Temp)
    (canSend : Bool) :
    (loopTick st now temp canSend).2 =
      if 1000 < now - st.lastSendTime then broadcastOut st temp canSend
      else [] := by
  simp only [loopTick, broadcastStep, sendTemperatureToClients,
    blueAutoOffStep_eq, redBlinkStep_eq, yellowBlinkStep_eq, bluePulseStep_eq,
    recordStep_eq]
  split_ifs <;> rfl

/-!
Frame facts about the command interpreter.
-/

theorem hcc_frame (st : DeviceState) (s : ClientId) (msg : String) :
    (handleClientCommand st s msg).1.activeClient = st.activeClient ∧
    (handleClientCommand st s msg).1.clientConnected = st.clientConnected ∧
    (handleClientCommand st s msg).1.lastSendTime = st.lastSendTime ∧
    (handleClientCommand st s msg).1.lastBlueBlink = st.lastBlueBlink := by
  unfold handleClientCommand
  split_ifs <;> exact ⟨rfl, rfl, rfl, rfl⟩

theorem hcc_green_frame (st : DeviceState) (s : ClientId) (msg : String)
    (h1 : msg ≠ "web_connected") (h2 : msg ≠ "web_disconnected") :
    (handleClientCommand st s msg).1.ledGreen = st.ledGreen := by
  unfold handleClientCommand
  split_ifs <;> rfl

theorem hcc_recordedData (st : DeviceState) (s : ClientId) (msg : String) :
    (handleClientCommand st s msg).1.recordedData =
      if msg = "start_record" then [] else st.recordedData := by
  unfold handleClientCommand
  split_ifs <;> first
    | rfl
    | simp_all

theorem hcc_isRecording (st : DeviceState) (s : ClientId) (msg : String) :
    (handleClientCommand st s msg).1.isRecording =
      if msg = "start_record" then true
      else if msg = "end_record" then false
      else st.isRecording := by
  unfold handleClientCommand
  split_ifs <;> first
    | rfl
    | simp_all

/-!
Reachable-state invariants, each proved by induction along `runSys`.
-/

theorem sysStep_connInv (st : DeviceState) (ev : SysEvent)
    (h : st.clientConnected = st.activeClient.isSome) :
    (sysStep st ev).1.clientConnected = (sysStep st ev).1.activeClient.isSome := by
  cases ev with
  | tick now temp canSend =>
    simp only [sysStep]
    rw [loopTick_clientConnected, loopTick_activeClient]
    exact h
  | ws e =>
    cases e with
    | connect c =>
      simp only [sysStep, onWsEvent]
      split_ifs with hc
      · exact h
      · rfl
    | disconnect c =>
      simp only [sysStep, onWsEvent]
      cases ha : st.activeClient with
      | none =>
        dsimp only
        exact h
      | some a =>
        dsimp only
        split_ifs with hc
        · rfl
        · exact h
    | data c msg =>
      simp only [sysStep, onWsEvent]
      cases ha : st.activeClient with
      | none =>
        dsimp only
        exact h
      | some a =>
        dsimp only
        split_ifs with hc
        · rw [(hcc_frame st c msg).1, (hcc_frame st c msg).2.1]
          exact h
        · exact h

theorem runSys_connInv (evs : List SysEvent) :
    ∀ st : DeviceState, st.clientConnected = st.activeClient.isSome →
      (runSys st evs).clientConnected = (runSys st evs).activeClient.isSome := by
  induction evs with
  | nil => intro st h; exact h
  | cons ev evs ih =>
    intro st h
    exact ih (sysStep st ev).1 (sysStep_connInv st ev h)

theorem sysStep_blueInv (st : DeviceState) (ev : SysEvent)
    (h : st.lastBlueBlink ≤ st.lastSendTime) :
    (sysStep st ev).1.lastBlueBlink ≤ (sysStep st ev).1.lastSendTime := by
  cases ev with
  | tick now temp canSend =>
    simp only [sysStep]
    rw [loopTick_lastBlueBlink, loopTick_lastSendTime]
    split_ifs with h1 h2 <;> omega
  | ws e =>
    cases e with
    | connect c =>
      simp only [sysStep, onWsEvent]
      split_ifs with hc
      · exact h
      · exact h
    | disconnect c =>
      simp only [sysStep, onWsEvent]
      cases ha : st.activeClient with
      | none =>
        dsimp only
        exact h
      | some a =>
        dsimp only
        split_ifs with hc
        · exact h
        · exact h
    | data c msg =>
      simp only [sysStep, onWsEvent]
      cases ha : st.activeClient with
      | none =>
        dsimp only
        exact h
      | some a =>
        dsimp only
        split_ifs with hc
        · rw [(hcc_frame st c msg).2.2.2, (hcc_frame st c msg).2.2.1]
          exact h
        · exact h

theorem runSys_blueInv (evs : List SysEvent) :
    ∀ st : DeviceState, st.lastBlueBlink ≤ st.lastSendTime →
      (runSys st evs).lastBlueBlink ≤ (runSys st evs).lastSendTime := by
  induction evs with
  | nil => intro st h; exact h
  | cons ev evs ih =>
    intro st h
    exact ih (sysStep st ev).1 (sysStep_blueInv st ev h)

theorem sysStep_mirror (st : DeviceState) (ev : SysEvent)
    (hweb : isWebLedCmd ev = false)
    (h : st.ledGreen.isOn = st.clientConnected) :
    (sysStep st ev).1.ledGreen.isOn = (sysStep st ev).1.clientConnected := by
  cases ev with
  | tick now temp canSend =>
    simp only [sysStep]
    rw [loopTick_ledGreen, loopTick_clientConnected]
    exact h
  | ws e =>
    cases e with
    | connect c =>
      simp only [sysStep, onWsEvent]
      split_ifs with hc
      · exact h
      · rfl
    | disconnect c =>
      simp only [sysStep, onWsEvent]
      cases ha : st.activeClient with
      | none =>
        dsimp only
        exact h
      | some a =>
        dsimp only
        split_ifs with hc
        · rfl
        · exact h
    | data c msg =>
      simp only [isWebLedCmd, Bool.or_eq_false_iff, beq_eq_false_iff_ne] at hweb
      simp only [sysStep, onWsEvent]
      cases ha : st.activeClient with
      | none =>
        dsimp only
        exact h
      | some a =>
        dsimp only
        split_ifs with hc
        · rw [hcc_green_frame st c msg hweb.1 hweb.2, (hcc_frame st c msg).2.1]
          exact h
        · exact h

theorem runSys_mirror (evs : List SysEvent) :
    ∀ st : DeviceState, st.ledGreen.isOn = st.clientConnected →
      (∀ ev ∈ evs, isWebLedCmd ev = false) →
      (runSys st evs).ledGreen.isOn = (runSys st evs).clientConnected := by
  induction evs with
  | nil => intro st h _; exact h
  | cons ev evs ih =>
    intro st h hweb
    exact ih (sysStep st ev).1
      (sysStep_mirror st ev (hweb ev (List.mem_cons_self ev evs)) h)
      (fun e he => hweb e (List.mem_cons_of_mem ev he))

/-!
How one system step treats the recording buffer.
-/

theorem step_recData_start (st : DeviceState) (ev : SysEvent)
    (h : isStartRecordEv st ev = true) :
    (sysStep st ev).1.recordedData = [] := by
  cases ev with
  | tick now temp canSend => simp [isStartRecordEv] at h
  | ws e =>
    cases e with
    | connect c => simp [isStartRecordEv] at h
    | disconnect c => simp [isStartRecordEv] at h
    | data c msg =>
      simp only [isStartRecordEv, Bool.and_eq_true, beq_iff_eq] at h
      simp only [sysStep, onWsEvent]
      cases ha : st.activeClient with
      | none => rw [ha] at h; exact absurd h.1 (by simp)
      | some a =>
        rw [ha] at h
        dsimp only
        have hc : c = a := by
          have h1 := h.1
          simp only [beq_iff_eq, Option.some.injEq] at h1
          exact h1.symm
        rw [if_pos hc, hcc_recordedData, if_pos h.2]

theorem step_recData_other (st : DeviceState) (ev : SysEvent)
    (h : isStartRecordEv st ev = false) (hr : st.isRecording = false) :
    (sysStep st ev).1.recordedData = st.recordedData := by
  cases ev with
  | tick now temp canSend =>
    simp only [sysStep]
    rw [loopTick_recordedData]
    split_ifs with hb
    · exact absurd hb.2 (by simp [hr])
    · rfl
  | ws e =>
    cases e with
    | connect c =>
      simp only [sysStep, onWsEvent]
      split_ifs <;> rfl
    | disconnect c =>
      simp only [sysStep, onWsEvent]
      cases ha : st.activeClient with
      | none => rfl
      | some a =>
        dsimp only
        split_ifs <;> rfl
    | data c msg =>
      simp only [isStartRecordEv, Bool.and_eq_false_iff, beq_eq_false_iff_ne] at h
      simp only [sysStep, onWsEvent]
      cases ha : st.activeClient with
      | none => rfl
      | some a =>
        dsimp only
        split_ifs with hc
        · rw [hcc_recordedData]
          rcases h with h | h
          · rw [ha] at h
            exact absurd rfl (by subst hc; exact h)
          · rw [if_neg h]
        · rfl

theorem step_recData_ne (st : DeviceState) (ev : SysEvent)
    (h : isStartRecordEv st ev = false) (hne : st.recordedData ≠ []) :
    (sysStep st ev).1.recordedData ≠ [] := by
  cases ev with
  | tick now temp canSend =>
    simp only [sysStep]
    rw [loopTick_recordedData]
    split_ifs with hb
    · simp
    · exact hne
  | ws e =>
    cases e with
    | connect c =>
      simp only [sysStep, onWsEvent]
      split_ifs <;> exact hne
    | disconnect c =>
      simp only [sysStep, onWsEvent]
      cases ha : st.activeClient with
      | none => exact hne
      | some a =>
        dsimp only
        split_ifs <;> exact hne
    | data c msg =>
      simp only [isStartRecordEv, Bool.and_eq_false_iff, beq_eq_false_iff_ne] at h
      simp only [sysStep, onWsEvent]
      cases ha : st.activeClient with
      | none => exact hne
      | some a =>
        dsimp only
        split_ifs with hc
        · rw [hcc_recordedData]
          rcases h with h | h
          · rw [ha] at h
            exact absurd rfl (by subst hc; exact h)
          · rw [if_neg h]
            exact hne
        · exact hne

theorem step_isRecording_start (st : DeviceState) (ev : SysEvent)
    (h0 : st.isRecording = false)
    (h1 : (sysStep st ev).1.isRecording = true) :
    isStartRecordEv st ev = true := by
  cases ev with
  | tick now temp canSend =>
    rw [sysStep, loopTick_isRecording, h0] at h1
    exact absurd h1 (by simp)
  | ws e =>
    cases e with
    | connect c =>
      simp only [sysStep, onWsEvent] at h1
      split_ifs at h1 <;> simp_all
    | disconnect c =>
      simp only [sysStep, onWsEvent] at h1
      cases ha : st.activeClient with
      | none => rw [ha] at h1; simp_all
      | some a =>
        rw [ha] at h1
        dsimp only at h1
        split_ifs at h1 <;> simp_all
    | data c msg =>
      simp only [sysStep, onWsEvent] at h1
      cases ha : st.activeClient with
      | none => rw [ha] at h1; simp_all
      | some a =>
        rw [ha] at h1
        dsimp only at h1
        split_ifs at h1 with hc
        · rw [hcc_isRecording] at h1
          split_ifs at h1 with hs he <;> simp_all [isStartRecordEv, ha, hc]
        · simp_all

/-!
The claims.
-/

/-- C1: over every event sequence from the initial state, at most one
session is active: `clientConnected` always agrees with the presence of a
registered client; a connect attempt while a client is connected is
rejected by closing the candidate's channel with no reply and no state
change; while a client `a` is registered, the only event that removes its
registration is `a`'s own disconnect; and a disconnect of any non-active
client changes nothing and sends nothing. -/
theorem claim_C1_singleSession (evs : List SysEvent) :
    ((runSys initState evs).clientConnected =
      (runSys initState evs).activeClient.isSome) ∧
    (∀ c : ClientId, (runSys initState evs).clientConnected = true →
      sysStep (runSys initState evs) (.ws (.connect c)) =
        (runSys initState evs, [.close c])) ∧
    (∀ a : ClientId, (runSys initState evs).activeClient = some a →
      ∀ ev : SysEvent,
        (sysStep (runSys initState evs) ev).1.activeClient ≠ some a →
        ev = .ws (.disconnect a)) ∧
    (∀ c : ClientId, (runSys initState evs).activeClient ≠ some c →
      sysStep (runSys initState evs) (.ws (.disconnect c)) =
        (runSys initState evs, [])) := by
  have hconn := runSys_connInv evs initState rfl
  refine ⟨hconn, ?_, ?_, ?_⟩
  · intro c h
    simp only [sysStep, onWsEvent]
    rw [if_pos h]
  · intro a ha ev hne
    cases ev with
    | tick now temp canSend =>
      rw [sysStep, loopTick_activeClient] at hne
      exact absurd ha hne
    | ws e =>
      cases e with
      | connect c =>
        have hc : (runSys initState evs).clientConnected = true := by
          rw [hconn, ha]
          rfl
        simp only [sysStep, onWsEvent] at hne
        rw [if_pos hc] at hne
        exact absurd ha hne
      | disconnect c =>
        by_cases hc : c = a
        · rw [hc]
        · simp only [sysStep, onWsEvent, ha] at hne
          rw [if_neg hc] at hne
          exact absurd ha hne
      | data c msg =>
        simp only [sysStep, onWsEvent, ha] at hne
        by_cases hc : c = a
        · rw [if_pos hc, (hcc_frame (runSys initState evs) c msg).1] at hne
          exact absurd ha hne
        · rw [if_neg hc] at hne
          exact absurd ha hne
  · intro c hc
    simp only [sysStep, onWsEvent]
    cases ha : (runSys initState evs).activeClient with
    | none => rfl
    | some a =>
      dsimp only
      rw [ha] at hc
      rw [if_neg (fun hca : c = a => hc (by rw [hca]))]

/-- Witness for C1: after client 1 connects, a connect attempt by client 2
is answered with a bare channel close and no state change, and a
disconnect of client 2 is a no-op. -/
theorem claim_C1_singleSession_witness :
    sysStep (runSys initState [.ws (.connect 1)]) (.ws (.connect 2)) =
      (runSys initState [.ws (.connect 1)], [.close 2]) ∧
    sysStep (runSys initState [.ws (.connect 1)]) (.ws (.disconnect 2)) =
      (runSys initState [.ws (.connect 1)], []) :=
  ⟨(claim_C1_singleSession [.ws (.connect 1)]).2.1 2 (by decide),
   (claim_C1_singleSession [.ws (.connect 1)]).2.2.2 2 (by decide)⟩

set_option maxRecDepth 40000 in
/-- C2 counterexample: a reachable state with 64 recorded samples (one
accepted client, `start_record`, 64 broadcast ticks, `end_record`); the
`get_record` reply then does NOT carry the full samples sequence, because
the 64th sample no longer fits in the 1024-byte reply document. -/
theorem claim_C2_cex :
    (runSys initState ([.ws (.connect 1), .ws (.data 1 "start_record")] ++
        (List.range 64).map (fun i => .tick ((i + 1) * 1001) (Int.ofNat i) true) ++
        [.ws (.data 1 "end_record")])).recordedData =
      (List.range 64).map Int.ofNat ∧
    handleClientCommand
        (runSys initState ([.ws (.connect 1), .ws (.data 1 "start_record")] ++
          (List.range 64).map (fun i => .tick ((i + 1) * 1001) (Int.ofNat i) true) ++
          [.ws (.data 1 "end_record")])) 1 "get_record" ≠
      (runSys initState ([.ws (.connect 1), .ws (.data 1 "start_record")] ++
          (List.range 64).map (fun i => .tick ((i + 1) * 1001) (Int.ofNat i) true) ++
          [.ws (.data 1 "end_record")]),
       [.send 1 (.dataArr
          (runSys initState ([.ws (.connect 1), .ws (.data 1 "start_record")] ++
            (List.range 64).map (fun i => .tick ((i + 1) * 1001) (Int.ofNat i) true) ++
            [.ws (.data 1 "end_record")])).recordedData)]) := by decide

/-- C2 (amended): `get_record` sends exactly one reply to the sender — the
"data" array holding the recorded samples in insertion order truncated to
the 1024-byte document's element capacity — and mutates no state; whenever
the buffer holds at most `docElemCapacity` (63) samples the reply carries
the full sequence, so the empty-buffer and small-N cases of the original
claim hold verbatim. -/
theorem claim_C2_getRecord (st : DeviceState) (sender : ClientId) :
    handleClientCommand st sender "get_record" =
      (st, [.send sender (.dataArr (getRecordData st.recordedData))]) ∧
    (st.recordedData.length ≤ docElemCapacity →
      getRecordData st.recordedData = st.recordedData) := by
  refine ⟨rfl, fun h => ?_⟩
  unfold getRecordData
  exact List.take_of_length_le h

/-- Witness for C2: with three recorded samples the `get_record` reply is
the untruncated three-element array and the state is untouched. -/
theorem claim_C2_getRecord_witness :
    handleClientCommand { initState with recordedData := [20, 21, 19] } 1
        "get_record" =
      ({ initState with recordedData := [20, 21, 19] },
       [.send 1 (.dataArr (getRecordData [20, 21, 19]))]) ∧
    getRecordData
        ({ initState with recordedData := [20, 21, 19] } : DeviceState).recordedData =
      [20, 21, 19] :=
  ⟨(claim_C2_getRecord { initState with recordedData := [20, 21, 19] } 1).1,
   (claim_C2_getRecord { initState with recordedData := [20, 21, 19] } 1).2
     (by decide)⟩

/-- C3: from every prior state — including one already recording with a
non-empty buffer — `start_record` sets `isRecording`, empties the buffer,
enables the recording indicator blink flag, and sends exactly the
"recording started" acknowledgement to the sender. -/
theorem claim_C3_startRecord (st : DeviceState) (sender : ClientId) :
    handleClientCommand st sender "start_record" =
      ({ st with isRecording := true, recordedData := [], yellowBlink := true },
       [.send sender .recordingStarted]) := rfl

/-- C4: any inbound command that is not byte-for-byte one of the 8
recognised literals is answered with exactly the "unknown command" error
reply to the sender, with no state mutation and no channel close. -/
theorem claim_C4_unknownCommand (st : DeviceState) (sender : ClientId)
    (msg : String) (h : msg ∉ recognizedCommands) :
    handleClientCommand st sender msg = (st, [.send sender .errorUnknown]) := by
  simp only [recognizedCommands, List.mem_cons, List.not_mem_nil, or_false,
    not_or] at h
  obtain ⟨h1, h2, h3, h4, h5, h6, h7, h8⟩ := h
  unfold handleClientCommand
  rw [if_neg h1, if_neg h2, if_neg h3, if_neg h4, if_neg h5, if_neg h6,
    if_neg h7, if_neg h8]

/-- Witness for C4 at the unrecognised command "foo". -/
theorem claim_C4_unknownCommand_witness :
    "foo" ∉ recognizedCommands ∧
    handleClientCommand initState 1 "foo" =
      (initState, [.send 1 .errorUnknown]) :=
  ⟨by decide, claim_C4_unknownCommand initState 1 "foo" (by decide)⟩

/-- C5 counterexample: after connect, `start_record` and one broadcast
tick, the device is recording with a non-empty buffer; a second
`start_record` empties the buffer while `isRecording` stays true — the
buffer is cleared on a step with no false-to-true transition of
`isRecording`, refuting "cleared exactly when is_recording transitions
from false to true". -/
theorem claim_C5_cex :
    (runSys initState
        [.ws (.connect 1), .ws (.data 1 "start_record"),
         .tick 2000 7 true]).isRecording = true ∧
    (runSys initState
        [.ws (.connect 1), .ws (.data 1 "start_record"),
         .tick 2000 7 true]).recordedData = [7] ∧
    (sysStep (runSys initState
        [.ws (.connect 1), .ws (.data 1 "start_record"), .tick 2000 7 true])
        (.ws (.data 1 "start_record"))).1.isRecording = true ∧
    (sysStep (runSys initState
        [.ws (.connect 1), .ws (.data 1 "start_record"), .tick 2000 7 true])
        (.ws (.data 1 "start_record"))).1.recordedData = [] := by decide

/-- C5 (amended): the samples buffer is cleared exactly when a
`start_record` command from the active client is processed — including
when `isRecording` is already true, where no false-to-true transition
occurs; on every other step a non-empty buffer stays non-empty; while
`isRecording` is false no step other than that clear-on-start changes the
buffer (and `get_record` only reads it); and `isRecording` can go from
false to true only through such a `start_record` step. -/
theorem claim_C5_samplesDiscipline (st : DeviceState) (ev : SysEvent) :
    (isStartRecordEv st ev = true → (sysStep st ev).1.recordedData = []) ∧
    (isStartRecordEv st ev = false → st.isRecording = false →
      (sysStep st ev).1.recordedData = st.recordedData) ∧
    (isStartRecordEv st ev = false → st.recordedData ≠ [] →
      (sysStep st ev).1.recordedData ≠ []) ∧
    (st.isRecording = false → (sysStep st ev).1.isRecording = true →
      isStartRecordEv st ev = true) :=
  ⟨step_recData_start st ev, step_recData_other st ev, step_recData_ne st ev,
   step_isRecording_start st ev⟩

/-- Witness for C5 at concrete states: an accepted `start_record` empties
a non-empty buffer; a non-broadcast tick leaves the idle buffer alone; a
broadcast tick while not recording keeps a non-empty buffer non-empty; and
the accepted `start_record` is what turns `isRecording` on. -/
theorem claim_C5_samplesDiscipline_witness :
    (sysStep
        { initState with activeClient := some 1, clientConnected := true,
                         isRecording := true, recordedData := [5] }
        (.ws (.data 1 "start_record"))).1.recordedData = [] ∧
    (sysStep initState (.tick 500 3 true)).1.recordedData =
      initState.recordedData ∧
    (sysStep { initState with recordedData := [5] }
        (.tick 2000 3 true)).1.recordedData ≠ [] ∧
    isStartRecordEv { initState with activeClient := some 1, clientConnected := true }
      (.ws (.data 1 "start_record")) = true :=
  ⟨(claim_C5_samplesDiscipline
      { initState with activeClient := some 1, clientConnected := true,
                       isRecording := true, recordedData := [5] }
      (.ws (.data 1 "start_record"))).1 (by decide),
   (claim_C5_samplesDiscipline initState (.tick 500 3 true)).2.1 (by decide)
     (by decide),
   (claim_C5_samplesDiscipline { initState with recordedData := [5] }
      (.tick 2000 3 true)).2.2.1 (by decide) (by decide),
   (claim_C5_samplesDiscipline
      { initState with activeClient := some 1, clientConnected := true }
      (.ws (.data 1 "start_record"))).2.2.2 (by decide) (by decide)⟩

/-- C6 counterexample: client 1 connects (green LED on, session active)
and then sends `web_disconnected`; the command forces the green LED off
while the session remains connected, so after this processed event the
connection indicator does not equal `Session.is_connected`. -/
theorem claim_C6_cex :
    (runSys initState
        [.ws (.connect 1), .ws (.data 1 "web_disconnected")]).clientConnected
      = true ∧
    (runSys initState
        [.ws (.connect 1), .ws (.data 1 "web_disconnected")]).ledGreen.isOn
      = false := by decide

/-- C6 (amended): after every processed event of a run that contains no
`web_connected` / `web_disconnected` command, the green connection
indicator is on exactly when a client session is connected; those two
commands force the LED on/off independently of the session and are the
only way the mirror can break. -/
theorem claim_C6_greenMirror (evs : List SysEvent)
    (h : ∀ ev ∈ evs, isWebLedCmd ev = false) :
    (runSys initState evs).ledGreen.isOn =
      (runSys initState evs).clientConnected :=
  runSys_mirror evs initState rfl h

/-- Witness for C6 on a concrete run: after a single accepted connect the
green LED is on and mirrors the connected session. -/
theorem claim_C6_greenMirror_witness :
    (runSys initState [SysEvent.ws (WsEvent.connect 1)]).ledGreen.isOn =
      (runSys initState [SysEvent.ws (WsEvent.connect 1)]).clientConnected :=
  claim_C6_greenMirror [SysEvent.ws (WsEvent.connect 1)] (by decide)

/-- C7: while its owning flag is set, a loop iteration toggles the red
alert LED exactly when 500 ms have elapsed since its last toggle (resetting
the toggle timestamp) and the yellow recording LED exactly when 1000 ms
have elapsed, leaving both untouched below the period; and the
flag-clearing commands `threshold_alert_off` / `end_record` clear the flag
and force the LED physically off at any phase of the blink cycle. -/
theorem claim_C7_blink :
    (∀ (st : DeviceState) (now : Nat) (temp : Temp) (canSend : Bool),
      st.redBlink = true →
      ((500 ≤ now - st.lastRedToggle →
          (loopTick st now temp canSend).1.ledRed = st.ledRed.toggle ∧
          (loopTick st now temp canSend).1.lastRedToggle = now) ∧
       (now - st.lastRedToggle < 500 →
          (loopTick st now temp canSend).1.ledRed = st.ledRed ∧
          (loopTick st now temp canSend).1.lastRedToggle = st.lastRedToggle))) ∧
    (∀ (st : DeviceState) (now : Nat) (temp : Temp) (canSend : Bool),
      st.yellowBlink = true →
      ((1000 ≤ now - st.lastYellowToggle →
          (loopTick st now temp canSend).1.ledYellow = st.ledYellow.toggle ∧
          (loopTick st now temp canSend).1.lastYellowToggle = now) ∧
       (now - st.lastYellowToggle < 1000 →
          (loopTick st now temp canSend).1.ledYellow = st.ledYellow ∧
          (loopTick st now temp canSend).1.lastYellowToggle =
            st.lastYellowToggle))) ∧
    (∀ (st : DeviceState) (sender : ClientId),
      (handleClientCommand st sender "threshold_alert_off").1.ledRed = .HIGH ∧
      (handleClientCommand st sender "threshold_alert_off").1.redBlink
        = false) ∧
    (∀ (st : DeviceState) (sender : ClientId),
      (handleClientCommand st sender "end_record").1.ledYellow = .HIGH ∧
      (handleClientCommand st sender "end_record").1.yellowBlink = false) := by
  refine ⟨?_, ?_, fun st sender => ⟨rfl, rfl⟩, fun st sender => ⟨rfl, rfl⟩⟩
  · intro st now temp canSend hflag
    constructor
    · intro hge
      rw [loopTick_ledRed, loopTick_lastRedToggle, if_pos ⟨hflag, hge⟩,
        if_pos ⟨hflag, hge⟩]
      exact ⟨rfl, rfl⟩
    · intro hlt
      rw [loopTick_ledRed, loopTick_lastRedToggle,
        if_neg (fun hc => absurd hc.2 (Nat.not_le.mpr hlt)),
        if_neg (fun hc => absurd hc.2 (Nat.not_le.mpr hlt))]
      exact ⟨rfl, rfl⟩
  · intro st now temp canSend hflag
    constructor
    · intro hge
      rw [loopTick_ledYellow, loopTick_lastYellowToggle, if_pos ⟨hflag, hge⟩,
        if_pos ⟨hflag, hge⟩]
      exact ⟨rfl, rfl⟩
    · intro hlt
      rw [loopTick_ledYellow, loopTick_lastYellowToggle,
        if_neg (fun hc => absurd hc.2 (Nat.not_le.mpr hlt)),
        if_neg (fun hc => absurd hc.2 (Nat.not_le.mpr hlt))]
      exact ⟨rfl, rfl⟩

/-- Witness for C7: at 600 ms with both flags set from the initial timers,
the red LED has toggled on and its timer reset while the yellow LED (period
not yet reached) is untouched; and the two clearing commands force their
LEDs off from a lit state. -/
theorem claim_C7_blink_witness :
    (loopTick { initState with redBlink := true, yellowBlink := true }
        600 0 false).1.ledRed = Level.LOW ∧
    (loopTick { initState with redBlink := true, yellowBlink := true }
        600 0 false).1.lastRedToggle = 600 ∧
    (loopTick { initState with redBlink := true, yellowBlink := true }
        600 0 false).1.ledYellow = Level.HIGH ∧
    (loopTick { initState with redBlink := true, yellowBlink := true }
        600 0 false).1.lastYellowToggle = 0 ∧
    (handleClientCommand { initState with redBlink := true, ledRed := Level.LOW }
        1 "threshold_alert_off").1.ledRed = Level.HIGH ∧
    (handleClientCommand
        { initState with yellowBlink := true, ledYellow := Level.LOW }
        1 "end_record").1.ledYellow = Level.HIGH := by
  have hr := (claim_C7_blink.1
    { initState with redBlink := true, yellowBlink := true } 600 0 false
    (by decide)).1 (by decide)
  have hy := (claim_C7_blink.2.1
    { initState with redBlink := true, yellowBlink := true } 600 0 false
    (by decide)).2 (by decide)
  have ha := claim_C7_blink.2.2.1
    { initState with redBlink := true, ledRed := Level.LOW } 1
  have hb := claim_C7_blink.2.2.2
    { initState with yellowBlink := true, ledYellow := Level.LOW } 1
  exact ⟨hr.1, hr.2, hy.1, hy.2, ha.1, hb.1⟩

/-- C8: from any reachable state, on a loop iteration whose broadcast
cadence fires (more than 1000 ms since the last broadcast) the device
consumes exactly one sensor reading, pulses the blue read LED (lit, timer
reset), appends the reading to the buffer exactly when recording, resets
the broadcast timer, and transmits the temperature frame to the active
client exactly when a session is active and its channel is writable; with
no active session nothing is sent and nothing is buffered for later
delivery. -/
theorem claim_C8_broadcast (evs : List SysEvent) (now : Nat) (temp : Temp)
    (canSend : Bool)
    (hfire : 1000 < now - (runSys initState evs).lastSendTime) :
    (loopTick (runSys initState evs) now temp canSend).1.ledBlue = .LOW ∧
    (loopTick (runSys initState evs) now temp canSend).1.lastBlueBlink
      = now ∧
    (loopTick (runSys initState evs) now temp canSend).1.lastSendTime
      = now ∧
    (loopTick (runSys initState evs) now temp canSend).1.recordedData =
      (if (runSys initState evs).isRecording then
        (runSys initState evs).recordedData ++ [temp]
      else (runSys initState evs).recordedData) ∧
    ((runSys initState evs).activeClient = none →
      (loopTick (runSys initState evs) now temp canSend).2 = []) ∧
    (∀ a : ClientId, (runSys initState evs).activeClient = some a →
      (loopTick (runSys initState evs) now temp canSend).2 =
        (if canSend then [.send a (.temperature temp)] else [])) := by
  have hinv := runSys_blueInv evs initState (Nat.le_refl 0)
  have hpulse : 1000 ≤ now - (runSys initState evs).lastBlueBlink := by
    omega
  refine ⟨?_, ?_, ?_, ?_, ?_, ?_⟩
  · rw [loopTick_ledBlue, if_pos ⟨hfire, hpulse⟩]
  · rw [loopTick_lastBlueBlink, if_pos ⟨hfire, hpulse⟩]
  · rw [loopTick_lastSendTime, if_pos hfire]
  · rw [loopTick_recordedData]
    by_cases hr : (runSys initState evs).isRecording = true
    · rw [if_pos ⟨hfire, hr⟩, if_pos hr]
    · rw [if_neg (fun hc => hr hc.2), if_neg hr]
  · intro hnone
    rw [loopTick_out, if_pos hfire]
    unfold broadcastOut
    rw [hnone]
  · intro a ha
    rw [loopTick_out, if_pos hfire]
    unfold broadcastOut
    rw [ha]

/-- Witness for C8: one loop iteration from the initial state at 2000 ms
fires the cadence; the blue LED is pulsed, the timer is reset, and — with
no session active — nothing is transmitted. -/
theorem claim_C8_broadcast_witness :
    (loopTick initState 2000 5 true).1.ledBlue = Level.LOW ∧
    (loopTick initState 2000 5 true).1.lastSendTime = 2000 ∧
    (loopTick initState 2000 5 true).2 = [] := by
  have h := claim_C8_broadcast [] 2000 5 true (by decide)
  exact ⟨h.1, h.2.2.1, h.2.2.2.2.1 (by decide)⟩

/-- C9: a data frame from any client other than the registered active one
is dropped before it reaches the command interpreter — no reply, no close,
no state change — and consequently no processed event can ever emit the
defensive "another user is already connected" reply. -/
theorem claim_C9_gate :
    (∀ (st : DeviceState) (c : ClientId) (msg : String),
      st.activeClient ≠ some c →
      onWsEvent st (.data c msg) = (st, [])) ∧
    (∀ (st : DeviceState) (ev : SysEvent) (d : ClientId),
      OutAction.send d .errorAnotherUser ∉ (sysStep st ev).2) := by
  constructor
  · intro st c msg h
    unfold onWsEvent
    cases ha : st.activeClient with
    | none => rfl
    | some a =>
      rw [ha] at h
      dsimp only
      rw [if_neg (fun hc : c = a => h (by rw [hc]))]
  · intro st ev d
    cases ev with
    | tick now temp canSend =>
      rw [sysStep, loopTick_out]
      split_ifs with hb
      · unfold broadcastOut
        cases st.activeClient with
        | none => simp
        | some a =>
          split_ifs with hcs <;> simp
      · simp
    | ws e =>
      cases e with
      | connect c =>
        simp only [sysStep, onWsEvent]
        split_ifs with hc <;> simp
      | disconnect c =>
        simp only [sysStep, onWsEvent]
        cases ha : st.activeClient with
        | none => simp
        | some a =>
          dsimp only
          split_ifs with hc <;> simp
      | data c msg =>
        simp only [sysStep, onWsEvent]
        cases ha : st.activeClient with
        | none => simp
        | some a =>
          dsimp only
          split_ifs with hc
          · subst hc
            unfold handleClientCommand
            split_ifs with h1 h2 <;> simp_all
          · simp

/-- Witness for C9: with client 1 active, a `test` frame from client 2 is
dropped with no reply and no state change, and in particular that step
emits no "another user is already connected" frame. -/
theorem claim_C9_gate_witness :
    onWsEvent { initState with activeClient := some 1, clientConnected := true }
        (.data 2 "test") =
      ({ initState with activeClient := some 1, clientConnected := true },
       []) ∧
    OutAction.send 2 Reply.errorAnotherUser ∉
      (sysStep { initState with activeClient := some 1, clientConnected := true }
        (.ws (.data 2 "test"))).2 :=
  ⟨claim_C9_gate.1
     { initState with activeClient := some 1, clientConnected := true } 2
     "test" (by decide),
   claim_C9_gate.2
     { initState with activeClient := some 1, clientConnected := true }
     (.ws (.data 2 "test")) 2⟩

/-- C10: the `get_record` reply is assembled in a fixed-capacity 1024-byte
document, so the full-export guarantee is bounded — every buffer of at
most `docElemCapacity` samples is exported whole and in order, and there
is a sample count (namely `docElemCapacity`) beyond which the reply is
still sent without any error but silently omits the surplus values. -/
theorem claim_C10_capacity :
    (∀ (st : DeviceState) (sender : ClientId),
      st.recordedData.length ≤ docElemCapacity →
      handleClientCommand st sender "get_record" =
        (st, [.send sender (.dataArr st.recordedData)])) ∧
    (∃ n : Nat, ∀ (st : DeviceState) (sender : ClientId),
      n < st.recordedData.length →
      handleClientCommand st sender "get_record" =
        (st, [.send sender (.dataArr (st.recordedData.take n))]) ∧
      (st.recordedData.take n).length < st.recordedData.length) := by
  constructor
  · intro st sender h
    have e : getRecordData st.recordedData = st.recordedData :=
      List.take_of_length_le h
    calc handleClientCommand st sender "get_record"
        = (st, [.send sender (.dataArr (getRecordData st.recordedData))]) :=
          rfl
      _ = (st, [.send sender (.dataArr st.recordedData)]) := by rw [e]
  · refine ⟨docElemCapacity, fun st sender h => ⟨rfl, ?_⟩⟩
    rw [List.length_take]
    omega

/-- Witness for C10: a single-sample buffer is exported whole. -/
theorem claim_C10_capacity_witness :
    handleClientCommand { initState with recordedData := [7] } 1
        "get_record" =
      ({ initState with recordedData := [7] }, [.send 1 (.dataArr [7])]) :=
  claim_C10_capacity.1 { initState with recordedData := [7] } 1 (by decide)
